import Mathlib

/-!
Verification of the core interaction logic of `react-native-vertical-ruler`
(`src/VerticalRuler.tsx`).  JavaScript numbers are modelled as exact
rationals (`ℚ`); `Math.round` is round-half-up (`⌊x + 1/2⌋`), which is the
JavaScript semantics for ties.  Each gesture / imperative handler of the
component is translated into a pure function from a state record to a new
state record together with the list of callback invocations it performs and
the warnings it reports.
-/

namespace VerticalRuler

/-- JavaScript `Math.round`: rounds to the nearest integer, halves toward
positive infinity, i.e. `⌊x + 1/2⌋`. -/
def jsRound (q : ℚ) : ℤ := ⌊q + 1/2⌋

/-- Clamping as written throughout the source:
`Math.max(lo, Math.min(hi, v))`. -/
def clamp (lo hi v : ℚ) : ℚ := max lo (min hi v)

/-- A measurement unit from the `units` registry (`UnitConfig` in the
source).  The source's `convertTo?: (value, targetUnit) => number` receives
the whole target descriptor but every conversion function in the component
consults only `targetUnit.symbol`, so the embedding passes the target's
symbol (a recursive `UnitConfig` argument would not be a valid inductive). -/
structure UnitConfig where
  label : String
  symbol : String
  convertTo : Option (ℚ → String → ℚ)

/-- The numeric / geometric configuration fields of `VerticalRulerConfig`
that the interaction logic reads (styling fields are presentation-only). -/
structure RulerConfig where
  minValue : ℚ
  maxValue : ℚ
  step : ℚ
  rulerHeight : ℚ
  tickInterval : ℚ
  magnificationRadius : ℚ
  maxScale : ℚ
  enableMagnification : Bool
  units : List UnitConfig
  unit : String

/-- The `units` entries of `DEFAULT_CONFIG` (cm / in / ft with their
mutual conversions; `2.54 cm = 1 in`, `30.48 cm = 1 ft`). -/
def defaultUnits : List UnitConfig :=
  [ { label := "Centimeters", symbol := "cm",
      convertTo := some fun value targetSymbol =>
        if targetSymbol = "in" then value / (254/100)
        else if targetSymbol = "ft" then value / (3048/100)
        else value },
    { label := "Inches", symbol := "in",
      convertTo := some fun value targetSymbol =>
        if targetSymbol = "cm" then value * (254/100)
        else if targetSymbol = "ft" then value / 12
        else value },
    { label := "Feet", symbol := "ft",
      convertTo := some fun value targetSymbol =>
        if targetSymbol = "cm" then value * (3048/100)
        else if targetSymbol = "in" then value * 12
        else value } ]

/-- Numeric part of `DEFAULT_CONFIG`: `minValue=150, maxValue=220, step=1,
rulerHeight=400, tickInterval=5, magnificationRadius=80, maxScale=1.5,
enableMagnification=true`. -/
def DEFAULT_CONFIG : RulerConfig :=
  { minValue := 150, maxValue := 220, step := 1, rulerHeight := 400,
    tickInterval := 5, magnificationRadius := 80, maxScale := 3/2,
    enableMagnification := true, units := defaultUnits, unit := "cm" }

/-- A tick mark (`TickInfo` in the source): a domain value and its pixel
position on the ruler. -/
structure TickInfo where
  value : ℚ
  position : ℚ
deriving DecidableEq

/-- The mutable state owned by the component: the committed `value`
(`useState` + `valueRef`), the active unit index, the animation target of
the cursor (`cursorAnimY`), the per-tick scale targets (`tickScaleMap`,
represented as an association list keyed by tick value), the measured ruler
origin (`rulerTopYRef`) and the pointer coordinate recorded at drag start
(`initialYRef`). -/
structure RulerState where
  value : ℚ
  currentUnitIndex : ℕ
  cursorAnimY : ℚ
  tickScales : List (ℚ × ℚ)
  rulerTopY : ℚ
  initialY : ℚ

/-- Callback invocations observable by the embedding component
(`onValueChange` / `onUnitChange`). -/
inductive Event where
  | valueChange (value : ℚ)
  | unitChange (unit : UnitConfig) (unitIndex : ℕ)

/-- The tick-generation loop:
`for (let v = minValue; v <= maxValue; v += tickInterval)` pushing
`{ value: v, position: ((maxValue - v) / (maxValue - minValue)) * RULER_HEIGHT }`.
`ticksFrom cfg v` is the list of ticks produced from loop variable `v`
onwards; the `0 < tickInterval` side of the guard is the termination
condition of the source loop (with a non-positive interval the JavaScript
loop would never terminate; the spec requires `tickInterval > 0`). -/
def ticksFrom (cfg : RulerConfig) (v : ℚ) : List TickInfo :=
  if h : 0 < cfg.tickInterval ∧ v ≤ cfg.maxValue then
    { value := v,
      position := (cfg.maxValue - v) / (cfg.maxValue - cfg.minValue) * cfg.rulerHeight } ::
      ticksFrom cfg (v + cfg.tickInterval)
  else []
termination_by (⌊(cfg.maxValue - v) / cfg.tickInterval⌋ + 1).toNat
decreasing_by
  obtain ⟨hti, hv⟩ := h
  have hne : cfg.tickInterval ≠ 0 := ne_of_gt hti
  have hstep : (cfg.maxValue - (v + cfg.tickInterval)) / cfg.tickInterval
      = (cfg.maxValue - v) / cfg.tickInterval - 1 := by
    field_simp
    ring
  have hnn : 0 ≤ (cfg.maxValue - v) / cfg.tickInterval :=
    div_nonneg (by linarith) (le_of_lt hti)
  have hfl : 0 ≤ ⌊(cfg.maxValue - v) / cfg.tickInterval⌋ := Int.floor_nonneg.mpr hnn
  rw [hstep]
  have : ⌊(cfg.maxValue - v) / cfg.tickInterval - 1⌋
      = ⌊(cfg.maxValue - v) / cfg.tickInterval⌋ - 1 := by
    exact_mod_cast Int.floor_sub_int ((cfg.maxValue - v) / cfg.tickInterval) 1
  rw [this]
  omega

/-- Memo `ticks`: generates all tick marks, starting the loop at
`minValue`. -/
def generateTicks (cfg : RulerConfig) : List TickInfo :=
  ticksFrom cfg cfg.minValue

/-- The body of `updateTickScales` for a single tick:
`distance = Math.abs(tick.position - cursorY)`; inside the magnification
radius the scale is `1 + (1 - distance/radius) * (maxScale - 1)`, otherwise
it stays `1`. -/
def computeTickScale (cfg : RulerConfig) (tickPosition cursorY : ℚ) : ℚ :=
  let distance := |tickPosition - cursorY|
  if distance < cfg.magnificationRadius then
    let proximity := 1 - distance / cfg.magnificationRadius
    1 + proximity * (cfg.maxScale - 1)
  else 1

/-- Function `updateTickScales(cursorY)`: recomputes every tick's scale
target; when magnification is disabled it returns without touching the map. -/
def updateTickScales (cfg : RulerConfig) (ticks : List TickInfo)
    (prev : List (ℚ × ℚ)) (cursorY : ℚ) : List (ℚ × ℚ) :=
  if cfg.enableMagnification then
    ticks.map fun tick => (tick.value, computeTickScale cfg tick.position cursorY)
  else prev

/-- The cursor-position projection used by `increment`, `decrement`,
`setValue` and `switchUnit`:
`newPosition = ((maxValue - newValue) / (maxValue - minValue)) * RULER_HEIGHT`. -/
def valueToPosition (cfg : RulerConfig) (v : ℚ) : ℚ :=
  (cfg.maxValue - v) / (cfg.maxValue - cfg.minValue) * cfg.rulerHeight

/-- Handler `increment()`: `newValue = Math.min(maxValue, value + step)`,
commit, notify `onValueChange(newValue)`, retarget the cursor and tick
scales. -/
def increment (cfg : RulerConfig) (s : RulerState) : RulerState × List Event :=
  let newValue := min cfg.maxValue (s.value + cfg.step)
  let newPosition := valueToPosition cfg newValue
  ({ s with
      value := newValue
      cursorAnimY := newPosition
      tickScales := updateTickScales cfg (generateTicks cfg) s.tickScales newPosition },
   [Event.valueChange newValue])

/-- Handler `decrement()`: `newValue = Math.max(minValue, value - step)`,
commit, notify, retarget cursor and tick scales. -/
def decrement (cfg : RulerConfig) (s : RulerState) : RulerState × List Event :=
  let newValue := max cfg.minValue (s.value - cfg.step)
  let newPosition := valueToPosition cfg newValue
  ({ s with
      value := newValue
      cursorAnimY := newPosition
      tickScales := updateTickScales cfg (generateTicks cfg) s.tickScales newPosition },
   [Event.valueChange newValue])

/-- Handler `setValue(newValue)`:
`clampedValue = Math.max(minValue, Math.min(maxValue, newValue))`, commit,
notify `onValueChange(clampedValue)`, retarget cursor and tick scales.  No
step snapping is applied. -/
def setValue (cfg : RulerConfig) (s : RulerState) (newValue : ℚ) :
    RulerState × List Event :=
  let clampedValue := max cfg.minValue (min cfg.maxValue newValue)
  let newPosition := valueToPosition cfg clampedValue
  ({ s with
      value := clampedValue
      cursorAnimY := newPosition
      tickScales := updateTickScales cfg (generateTicks cfg) s.tickScales newPosition },
   [Event.valueChange clampedValue])

/-- Handler `switchUnit(index)`: out-of-bounds indices are reported through
`console.warn` and the method returns with the state untouched; switching to
the current index is a silent no-op; otherwise the value is converted by the
active unit's `convertTo` (identity when absent), clamped into the (fixed)
`[minValue, maxValue]` range, committed, and both callbacks fire — value
callback first.  The result is `(new state, events, warnings)`. -/
def switchUnit (cfg : RulerConfig) (s : RulerState) (index : ℤ) :
    RulerState × List Event × List String :=
  if index < 0 ∨ (cfg.units.length : ℤ) ≤ index then
    (s, [], ["Invalid unit index: " ++ toString index])
  else if index.toNat = s.currentUnitIndex then
    (s, [], [])
  else
    let currentUnit := cfg.units.getD s.currentUnitIndex ⟨"", "", none⟩
    let targetUnit := cfg.units.getD index.toNat ⟨"", "", none⟩
    let converted :=
      match currentUnit.convertTo with
      | some f => f s.value targetUnit.symbol
      | none => s.value
    let convertedValue := max cfg.minValue (min cfg.maxValue converted)
    let newPosition := valueToPosition cfg convertedValue
    ({ s with
        value := convertedValue
        currentUnitIndex := index.toNat
        cursorAnimY := newPosition
        tickScales := updateTickScales cfg (generateTicks cfg) s.tickScales newPosition },
     [Event.valueChange convertedValue, Event.unitChange targetUnit index.toNat],
     [])

/-- Handler `getCurrentUnit()`: `units[currentUnitIndex] || unit` — the active
descriptor, or the plain `unit` string when the index has no entry. -/
def getCurrentUnit (cfg : RulerConfig) (s : RulerState) : UnitConfig ⊕ String :=
  match cfg.units.get? s.currentUnitIndex with
  | some u => Sum.inl u
  | none => Sum.inr cfg.unit

/-- Handler `onPanResponderGrant`: measures the ruler's page origin into
`rulerTopYRef` and records the initial pointer coordinate in `initialYRef`.
No value change. -/
def onPanResponderGrant (s : RulerState) (measuredPageY pointerPageY : ℚ) :
    RulerState :=
  { s with rulerTopY := measuredPageY, initialY := pointerPageY }

/-- Handler `onPanResponderMove`: clamps the drag offset into `[0, RULER_HEIGHT]`,
maps it (inverted) to a raw value, snaps with
`Math.round(newValue / step) * step`, retargets cursor and tick scales, and
commits + notifies the stepped value. -/
def onPanResponderMove (cfg : RulerConfig) (s : RulerState) (pageY : ℚ) :
    RulerState × List Event :=
  let dragFromRulerTop := pageY - s.rulerTopY
  let clampedDrag := max 0 (min cfg.rulerHeight dragFromRulerTop)
  let percentage := clampedDrag / cfg.rulerHeight
  let newValue := cfg.maxValue - percentage * (cfg.maxValue - cfg.minValue)
  let steppedValue := (jsRound (newValue / cfg.step) : ℚ) * cfg.step
  let newPosition := clampedDrag / cfg.rulerHeight * cfg.rulerHeight
  ({ s with
      cursorAnimY := newPosition
      tickScales := updateTickScales cfg (generateTicks cfg) s.tickScales newPosition
      value := steppedValue },
   [Event.valueChange steppedValue])

/-- Handler `onPanResponderRelease`: recomputes the stepped value exactly as the
move handler, commits + notifies it, retargets the cursor, and eases every
tick scale back to `1`. -/
def onPanResponderRelease (cfg : RulerConfig) (s : RulerState) (pageY : ℚ) :
    RulerState × List Event :=
  let dragFromRulerTop := pageY - s.rulerTopY
  let clampedDrag := max 0 (min cfg.rulerHeight dragFromRulerTop)
  let percentage := clampedDrag / cfg.rulerHeight
  let newValue := cfg.maxValue - percentage * (cfg.maxValue - cfg.minValue)
  let steppedValue := (jsRound (newValue / cfg.step) : ℚ) * cfg.step
  let newPosition := clampedDrag / cfg.rulerHeight * cfg.rulerHeight
  ({ s with
      value := steppedValue
      cursorAnimY := newPosition
      tickScales := (generateTicks cfg).map fun tick => (tick.value, (1 : ℚ)) },
   [Event.valueChange steppedValue])

/-- Initial state at mount: `useState(minValue)`, unit index
`defaultUnitIndex` (0 by default), cursor shared value `0`, empty scale
map, refs zeroed. -/
def initialState (cfg : RulerConfig) : RulerState :=
  { value := cfg.minValue, currentUnitIndex := 0, cursorAnimY := 0,
    tickScales := [], rulerTopY := 0, initialY := 0 }

/-- The snapping performed by the drag handlers:
`Math.round(newValue / step) * step`. -/
def snapToStep (cfg : RulerConfig) (v : ℚ) : ℚ :=
  (jsRound (v / cfg.step) : ℚ) * cfg.step

/-- Modelled from the spec (§4.1), for comparison with `snapToStep`: the
spec's claimed snapping function
`clamp(round((value - minValue) / step) * step + minValue, minValue, maxValue)`. -/
def snapToStepSpec (cfg : RulerConfig) (v : ℚ) : ℚ :=
  clamp cfg.minValue cfg.maxValue
    ((jsRound ((v - cfg.minValue) / cfg.step) : ℚ) * cfg.step + cfg.minValue)

/-- Predicate: `v` lies in the active range `[minValue, maxValue]`. -/
def inRange (cfg : RulerConfig) (v : ℚ) : Prop :=
  cfg.minValue ≤ v ∧ v ≤ cfg.maxValue

/-- Predicate: `v` is a multiple of `step` offset from `minValue`. -/
def stepAligned (cfg : RulerConfig) (v : ℚ) : Prop :=
  ∃ k : ℤ, v = cfg.minValue + k * cfg.step

/-- Configuration of the spec's `setValue` scenario:
`minValue=40, maxValue=150, step=0.5`, other fields as in `DEFAULT_CONFIG`. -/
def cfg40 : RulerConfig :=
  { DEFAULT_CONFIG with minValue := 40, maxValue := 150, step := 1/2 }

/-- Configuration whose `minValue = 150.5` is not a multiple of `step = 1`;
it separates the source's snapping from the spec's snapping formula. -/
def cfgHalf : RulerConfig :=
  { DEFAULT_CONFIG with minValue := 301/2 }

/-- State holding the value `175` cm of the unit round-trip scenario. -/
def s175 : RulerState :=
  { initialState DEFAULT_CONFIG with value := 175 }

end VerticalRuler

namespace VerticalRuler

/-! ### Helper lemmas -/

theorem jsRound_intCast (k : ℤ) : jsRound (k : ℚ) = k := by
  unfold jsRound
  rw [Int.floor_int_add]
  norm_num

theorem jsRound_sub_int (q : ℚ) (k : ℤ) : jsRound (q - k) = jsRound q - k := by
  unfold jsRound
  rw [sub_add_eq_add_sub, Int.floor_sub_int]

theorem jsRound_mono {a b : ℚ} (h : a ≤ b) : jsRound a ≤ jsRound b :=
  Int.floor_mono (by linarith)

theorem jsRound_bounds {a b : ℤ} {x : ℚ} (h1 : (a : ℚ) ≤ x) (h2 : x ≤ b) :
    a ≤ jsRound x ∧ jsRound x ≤ b := by
  constructor
  · have := jsRound_mono h1
    rwa [jsRound_intCast] at this
  · have := jsRound_mono h2
    rwa [jsRound_intCast] at this

theorem percentage_bounds (H d : ℚ) :
    0 ≤ max 0 (min H d) / H ∧ max 0 (min H d) / H ≤ 1 := by
  rcases le_or_lt H 0 with hH | hH
  · have h0 : max 0 (min H d) = 0 := by
      have : min H d ≤ 0 := le_trans (min_le_left _ _) hH
      simp [max_eq_left this]
    rw [h0, zero_div]
    norm_num
  · have h0 : 0 ≤ max 0 (min H d) := le_max_left _ _
    have h1 : max 0 (min H d) ≤ H := max_le (le_of_lt hH) (min_le_left _ _)
    exact ⟨div_nonneg h0 (le_of_lt hH), (div_le_one hH).mpr h1⟩

theorem rawValue_mem (cfg : RulerConfig) (hmm : cfg.minValue ≤ cfg.maxValue)
    {p : ℚ} (h0 : 0 ≤ p) (h1 : p ≤ 1) :
    inRange cfg (cfg.maxValue - p * (cfg.maxValue - cfg.minValue)) := by
  constructor <;> nlinarith

theorem snapToStep_mem (cfg : RulerConfig) (a b : ℤ)
    (hmin : cfg.minValue = a * cfg.step) (hmax : cfg.maxValue = b * cfg.step)
    (hstep : 0 < cfg.step) {v : ℚ} (hv : inRange cfg v) :
    inRange cfg (snapToStep cfg v) ∧ stepAligned cfg (snapToStep cfg v) := by
  obtain ⟨h1, h2⟩ := hv
  have hv1 : (a : ℚ) ≤ v / cfg.step := by
    rw [le_div_iff hstep]
    rw [hmin] at h1
    linarith
  have hv2 : v / cfg.step ≤ (b : ℚ) := by
    rw [div_le_iff hstep]
    rw [hmax] at h2
    linarith
  obtain ⟨hk1, hk2⟩ := jsRound_bounds hv1 hv2
  have hk1' : (a : ℚ) ≤ (jsRound (v / cfg.step) : ℚ) := by exact_mod_cast hk1
  have hk2' : ((jsRound (v / cfg.step) : ℚ)) ≤ (b : ℚ) := by exact_mod_cast hk2
  refine ⟨⟨?_, ?_⟩, ?_⟩
  · rw [hmin]
    unfold snapToStep
    nlinarith
  · rw [hmax]
    unfold snapToStep
    nlinarith
  · exact ⟨jsRound (v / cfg.step) - a, by
      unfold snapToStep
      rw [hmin]
      push_cast
      ring⟩

theorem clamp_eq_self (lo hi v : ℚ) (h1 : lo ≤ v) (h2 : v ≤ hi) :
    clamp lo hi v = v := by
  unfold clamp
  rw [min_eq_right h2, max_eq_right h1]

/-! ### Claims -/

/-- C10: the value committed by a drag-move (and drag-release) event depends
only on the measured ruler origin and the current pointer coordinate — two
drags whose `onPanResponderGrant` recorded different initial pointer
coordinates (`initialYRef`) but the same measured origin commit the same
value and fire the same callbacks for the same current `pageY`. -/
theorem C10_dragIndependence (cfg : RulerConfig) (s : RulerState)
    (measuredY y1 y2 pageY : ℚ) :
    (onPanResponderMove cfg (onPanResponderGrant s measuredY y1) pageY).1.value
      = (onPanResponderMove cfg (onPanResponderGrant s measuredY y2) pageY).1.value
    ∧ (onPanResponderMove cfg (onPanResponderGrant s measuredY y1) pageY).2
      = (onPanResponderMove cfg (onPanResponderGrant s measuredY y2) pageY).2
    ∧ (onPanResponderRelease cfg (onPanResponderGrant s measuredY y1) pageY).1.value
      = (onPanResponderRelease cfg (onPanResponderGrant s measuredY y2) pageY).1.value
    ∧ (onPanResponderRelease cfg (onPanResponderGrant s measuredY y1) pageY).2
      = (onPanResponderRelease cfg (onPanResponderGrant s measuredY y2) pageY).2 :=
  ⟨rfl, rfl, rfl, rfl⟩

/-- C5: the cm(175) → in → cm unit round-trip does NOT return near 175: the
converted value is clamped into the unit-independent `[150, 220]` range on
every switch, so the first switch commits `150` (since `175 / 2.54 ≈ 68.9 <
150`) and the switch back commits `220` (since `150 × 2.54 = 381 > 220`).
This evaluates the code at the claim's failing input. -/
theorem C5_roundTrip :
    (switchUnit DEFAULT_CONFIG s175 1).1.value = 150
    ∧ (switchUnit DEFAULT_CONFIG (switchUnit DEFAULT_CONFIG s175 1).1 0).1.value = 220
    ∧ (switchUnit DEFAULT_CONFIG (switchUnit DEFAULT_CONFIG s175 1).1 0).1.value ≠ 175 := by
  refine ⟨?_, ?_, ?_⟩ <;>
    · simp only [switchUnit, DEFAULT_CONFIG, defaultUnits, initialState, s175]
      norm_num [max_def, min_def]

end VerticalRuler

namespace VerticalRuler

/-- C3: on every drag-move event the cursor target is
`clamp(pointerY - originY, 0, rulerHeight)`, the committed value is the
inverted linear map of that position snapped to step, the callback fires
with the committed value, and in the default configuration
(`[150, 220]`, step 1, length 400, inverted) a pointer at `originY + 400`
yields 150, at `originY` yields 220, and at `originY + 200` yields 185. -/
theorem C3_dragMove (cfg : RulerConfig) (s : RulerState) (pageY originY : ℚ) :
    (onPanResponderMove cfg s pageY).1.cursorAnimY
      = clamp 0 cfg.rulerHeight (pageY - s.rulerTopY)
    ∧ (onPanResponderMove cfg s pageY).1.value
      = snapToStep cfg (cfg.maxValue -
          clamp 0 cfg.rulerHeight (pageY - s.rulerTopY) / cfg.rulerHeight *
            (cfg.maxValue - cfg.minValue))
    ∧ (onPanResponderMove cfg s pageY).2
      = [Event.valueChange ((onPanResponderMove cfg s pageY).1.value)]
    ∧ (onPanResponderMove DEFAULT_CONFIG { s with rulerTopY := originY }
        (originY + 400)).1.value = 150
    ∧ (onPanResponderMove DEFAULT_CONFIG { s with rulerTopY := originY }
        originY).1.value = 220
    ∧ (onPanResponderMove DEFAULT_CONFIG { s with rulerTopY := originY }
        (originY + 200)).1.value = 185 := by
  refine ⟨?_, rfl, rfl, ?_, ?_, ?_⟩
  · show max 0 (min cfg.rulerHeight (pageY - s.rulerTopY)) / cfg.rulerHeight *
        cfg.rulerHeight = _
    unfold clamp
    rcases eq_or_ne cfg.rulerHeight 0 with h | h
    · have hle : min (0 : ℚ) (pageY - s.rulerTopY) ≤ 0 := min_le_left _ _
      simp [h, max_eq_left hle]
    · rw [div_mul_cancel₀ _ h]
  all_goals
    simp only [onPanResponderMove, DEFAULT_CONFIG]
    ring_nf
    norm_num [jsRound, max_def, min_def]

/-- C4: the tick scale is `1` at or beyond the magnification radius,
`maxScale` at distance zero, `1 + (1 - distance/radius) * (maxScale - 1)`
inside the radius, and (for `maxScale ≥ 1`) monotonically non-increasing in
the distance. -/
theorem C4_magnification (cfg : RulerConfig)
    (hr : 0 < cfg.magnificationRadius) (hms : 1 ≤ cfg.maxScale) :
    (∀ tickPos cursorY : ℚ, cfg.magnificationRadius ≤ |tickPos - cursorY| →
      computeTickScale cfg tickPos cursorY = 1)
    ∧ (∀ cursorY : ℚ, computeTickScale cfg cursorY cursorY = cfg.maxScale)
    ∧ (∀ tickPos cursorY : ℚ, |tickPos - cursorY| < cfg.magnificationRadius →
        computeTickScale cfg tickPos cursorY
          = 1 + (1 - |tickPos - cursorY| / cfg.magnificationRadius) *
              (cfg.maxScale - 1))
    ∧ (∀ t1 t2 cursorY : ℚ, |t1 - cursorY| ≤ |t2 - cursorY| →
        computeTickScale cfg t2 cursorY ≤ computeTickScale cfg t1 cursorY) := by
  refine ⟨?_, ?_, ?_, ?_⟩
  · intro tickPos cursorY h
    unfold computeTickScale
    rw [if_neg (not_lt.mpr h)]
  · intro cursorY
    unfold computeTickScale
    rw [sub_self, abs_zero, if_pos hr, zero_div]
    ring
  · intro tickPos cursorY h
    unfold computeTickScale
    rw [if_pos h]
  · intro t1 t2 cursorY h
    have h1 : (0 : ℚ) ≤ |t1 - cursorY| := abs_nonneg _
    unfold computeTickScale
    by_cases hc1 : |t1 - cursorY| < cfg.magnificationRadius
    · rw [if_pos hc1]
      by_cases hc2 : |t2 - cursorY| < cfg.magnificationRadius
      · rw [if_pos hc2]
        have hdiv : |t1 - cursorY| / cfg.magnificationRadius
            ≤ |t2 - cursorY| / cfg.magnificationRadius :=
          (div_le_div_right hr).mpr h
        nlinarith
      · rw [if_neg hc2]
        have hlt : |t1 - cursorY| / cfg.magnificationRadius < 1 :=
          (div_lt_one hr).mpr hc1
        have hnn : 0 ≤ |t1 - cursorY| / cfg.magnificationRadius :=
          div_nonneg h1 (le_of_lt hr)
        nlinarith
    · have hc2 : ¬ |t2 - cursorY| < cfg.magnificationRadius := by
        push_neg at hc1 ⊢
        linarith
      rw [if_neg hc1, if_neg hc2]

/-- Witness for C4 at the default configuration (radius 80, maxScale 1.5):
a tick exactly under the cursor is scaled to `maxScale`. -/
theorem C4_magnification_witness :
    0 < DEFAULT_CONFIG.magnificationRadius ∧ 1 ≤ DEFAULT_CONFIG.maxScale
    ∧ computeTickScale DEFAULT_CONFIG 0 0 = DEFAULT_CONFIG.maxScale :=
  ⟨by norm_num [DEFAULT_CONFIG], by norm_num [DEFAULT_CONFIG],
   (C4_magnification DEFAULT_CONFIG (by norm_num [DEFAULT_CONFIG])
     (by norm_num [DEFAULT_CONFIG])).2.1 0⟩

/-- C7: `setValue(v)` commits `clamp(v, minValue, maxValue)` with no step
snapping and notifies the callback with that clamped value; in the scenario
`minValue=40, maxValue=150, step=0.5`, `setValue(61.3)` commits `61.3`
unchanged and a subsequent `increment()` commits and notifies `61.8`. -/
theorem C7_setValue (cfg : RulerConfig) (s : RulerState) (x : ℚ) :
    (setValue cfg s x).1.value = clamp cfg.minValue cfg.maxValue x
    ∧ (setValue cfg s x).2
      = [Event.valueChange (clamp cfg.minValue cfg.maxValue x)]
    ∧ (setValue cfg40 (initialState cfg40) (613/10)).1.value = 613/10
    ∧ (increment cfg40 (setValue cfg40 (initialState cfg40) (613/10)).1).1.value
      = 309/5
    ∧ (increment cfg40 (setValue cfg40 (initialState cfg40) (613/10)).1).2
      = [Event.valueChange (309/5)] := by
  refine ⟨rfl, rfl, ?_, ?_, ?_⟩ <;>
    · simp only [setValue, increment, cfg40, DEFAULT_CONFIG, initialState]
      norm_num [max_def, min_def]

/-- C8: `switchUnit` with an index outside the registry's bounds reports a
warning, leaves the whole state unchanged, fires no callbacks, and
`getCurrentUnit()` still answers as before. -/
theorem C8_invalidUnitIndex (cfg : RulerConfig) (s : RulerState) (idx : ℤ)
    (h : idx < 0 ∨ (cfg.units.length : ℤ) ≤ idx) :
    switchUnit cfg s idx = (s, [], ["Invalid unit index: " ++ toString idx])
    ∧ getCurrentUnit cfg (switchUnit cfg s idx).1 = getCurrentUnit cfg s := by
  have h1 : switchUnit cfg s idx
      = (s, [], ["Invalid unit index: " ++ toString idx]) := by
    unfold switchUnit
    rw [if_pos h]
  exact ⟨h1, by rw [h1]⟩

/-- Witness for C8: `switchUnit(5)` on the default 3-entry registry leaves
the initial state untouched and reports the warning. -/
theorem C8_invalidUnitIndex_witness :
    ((5 : ℤ) < 0 ∨ (DEFAULT_CONFIG.units.length : ℤ) ≤ 5)
    ∧ switchUnit DEFAULT_CONFIG (initialState DEFAULT_CONFIG) 5
      = (initialState DEFAULT_CONFIG, [],
         ["Invalid unit index: " ++ toString (5 : ℤ)]) := by
  have hlen : (DEFAULT_CONFIG.units.length : ℤ) ≤ 5 := by
    norm_num [DEFAULT_CONFIG, defaultUnits]
  exact ⟨Or.inr hlen,
    (C8_invalidUnitIndex DEFAULT_CONFIG (initialState DEFAULT_CONFIG) 5
      (Or.inr hlen)).1⟩

end VerticalRuler

namespace VerticalRuler

/-- C6: `increment()` / `decrement()` commit
`clamp(currentValue ± step, minValue, maxValue)` and always notify the
callback with the new value; at `currentValue == maxValue`, `increment()`
leaves the value unchanged and still notifies with `maxValue`. -/
theorem C6_stepCommands (cfg : RulerConfig) (s : RulerState)
    (hstep : 0 < cfg.step) (h1 : cfg.minValue ≤ s.value)
    (h2 : s.value ≤ cfg.maxValue) :
    (increment cfg s).1.value
      = clamp cfg.minValue cfg.maxValue (s.value + cfg.step)
    ∧ (increment cfg s).2 = [Event.valueChange ((increment cfg s).1.value)]
    ∧ (decrement cfg s).1.value
      = clamp cfg.minValue cfg.maxValue (s.value - cfg.step)
    ∧ (decrement cfg s).2 = [Event.valueChange ((decrement cfg s).1.value)]
    ∧ (s.value = cfg.maxValue →
        (increment cfg s).1.value = cfg.maxValue
        ∧ (increment cfg s).2 = [Event.valueChange cfg.maxValue]) := by
  have hmm : cfg.minValue ≤ cfg.maxValue := le_trans h1 h2
  have e1 : (increment cfg s).1.value
      = min cfg.maxValue (s.value + cfg.step) := rfl
  have e2 : (decrement cfg s).1.value
      = max cfg.minValue (s.value - cfg.step) := rfl
  refine ⟨?_, rfl, ?_, rfl, ?_⟩
  · have hms : cfg.minValue ≤ min cfg.maxValue (s.value + cfg.step) :=
      le_min hmm (by linarith)
    rw [e1]
    unfold clamp
    rw [max_eq_right hms]
  · have hls : min cfg.maxValue (s.value - cfg.step) = s.value - cfg.step :=
      min_eq_right (by linarith)
    rw [e2]
    unfold clamp
    rw [hls]
  · intro he
    have hval : (increment cfg s).1.value = cfg.maxValue := by
      rw [e1, he]
      exact min_eq_left (by linarith)
    refine ⟨hval, ?_⟩
    have : (increment cfg s).2
        = [Event.valueChange ((increment cfg s).1.value)] := rfl
    rw [this, hval]

/-- Witness for C6 at the default configuration, initial value 150:
`increment()` commits `clamp(150 + 1) = 151`. -/
theorem C6_stepCommands_witness :
    (0 < DEFAULT_CONFIG.step
      ∧ DEFAULT_CONFIG.minValue ≤ (initialState DEFAULT_CONFIG).value
      ∧ (initialState DEFAULT_CONFIG).value ≤ DEFAULT_CONFIG.maxValue)
    ∧ (increment DEFAULT_CONFIG (initialState DEFAULT_CONFIG)).1.value
      = clamp DEFAULT_CONFIG.minValue DEFAULT_CONFIG.maxValue
          ((initialState DEFAULT_CONFIG).value + DEFAULT_CONFIG.step) :=
  ⟨⟨by norm_num [DEFAULT_CONFIG], by norm_num [DEFAULT_CONFIG, initialState],
    by norm_num [DEFAULT_CONFIG, initialState]⟩,
   (C6_stepCommands DEFAULT_CONFIG (initialState DEFAULT_CONFIG)
     (by norm_num [DEFAULT_CONFIG])
     (by norm_num [DEFAULT_CONFIG, initialState])
     (by norm_num [DEFAULT_CONFIG, initialState])).1⟩

/-- C2 counterexample: with `minValue = 150.5` (not a multiple of
`step = 1`) the source's snapping `Math.round(v / step) * step` maps the
in-range grid point `150.5 = minValue + 0·step` to `151`, while the spec's
formula `clamp(round((v - minValue)/step)·step + minValue, …)` returns it
unchanged — so the code's snapping is not the spec's function and does not
fix step-grid points in general. -/
theorem C2_counterexample :
    snapToStep cfgHalf (301/2) = 151
    ∧ snapToStepSpec cfgHalf (301/2) = 301/2
    ∧ inRange cfgHalf (301/2)
    ∧ (301 : ℚ)/2 = cfgHalf.minValue + ((0 : ℤ) : ℚ) * cfgHalf.step := by
  refine ⟨?_, ?_, ?_, ?_⟩
  · simp only [snapToStep, cfgHalf, DEFAULT_CONFIG]
    norm_num [jsRound]
  · simp only [snapToStepSpec, clamp, cfgHalf, DEFAULT_CONFIG]
    norm_num [jsRound, max_def, min_def]
  · constructor <;> norm_num [cfgHalf, DEFAULT_CONFIG]
  · norm_num [cfgHalf, DEFAULT_CONFIG]

/-- C2 (amended): the source's snapping is
`Math.round(value / step) * step` — with no `minValue` offset and no
clamping.  When `minValue` and `maxValue` are integer multiples of `step`
this coincides on `[minValue, maxValue]` with the spec's formula, and every
grid point `minValue + k·step` is a fixed point. -/
theorem C2_amended (cfg : RulerConfig) (a b : ℤ)
    (hmin : cfg.minValue = a * cfg.step) (hmax : cfg.maxValue = b * cfg.step)
    (hstep : 0 < cfg.step) :
    (∀ v : ℚ, inRange cfg v → snapToStep cfg v = snapToStepSpec cfg v)
    ∧ (∀ k : ℤ, snapToStep cfg (cfg.minValue + k * cfg.step)
        = cfg.minValue + k * cfg.step) := by
  have hne : cfg.step ≠ 0 := ne_of_gt hstep
  constructor
  · intro v hv
    have hsub : (v - cfg.minValue) / cfg.step = v / cfg.step - (a : ℚ) := by
      rw [hmin, sub_div, mul_div_cancel_right₀ _ hne]
    unfold snapToStepSpec
    rw [hsub]
    rw [show v / cfg.step - (a : ℚ) = v / cfg.step - ((a : ℤ) : ℚ) from rfl,
      jsRound_sub_int]
    have hinner : ((jsRound (v / cfg.step) - a : ℤ) : ℚ) * cfg.step + cfg.minValue
        = snapToStep cfg v := by
      unfold snapToStep
      rw [hmin]
      push_cast
      ring
    rw [hinner]
    have hmem := (snapToStep_mem cfg a b hmin hmax hstep hv).1
    exact (clamp_eq_self _ _ _ hmem.1 hmem.2).symm
  · intro k
    unfold snapToStep
    rw [hmin]
    have harg : ((a : ℚ) * cfg.step + (k : ℚ) * cfg.step) / cfg.step
        = ((a + k : ℤ) : ℚ) := by
      push_cast
      field_simp
      ring
    rw [harg, jsRound_intCast]
    push_cast
    ring

/-- Witness for C2 (amended) at the default configuration
(`150 = 150·1`, `220 = 220·1`): the grid point `150 + 35·1` is a fixed
point of the source's snapping. -/
theorem C2_amended_witness :
    (DEFAULT_CONFIG.minValue = ((150 : ℤ) : ℚ) * DEFAULT_CONFIG.step
      ∧ DEFAULT_CONFIG.maxValue = ((220 : ℤ) : ℚ) * DEFAULT_CONFIG.step
      ∧ 0 < DEFAULT_CONFIG.step)
    ∧ snapToStep DEFAULT_CONFIG
        (DEFAULT_CONFIG.minValue + ((35 : ℤ) : ℚ) * DEFAULT_CONFIG.step)
      = DEFAULT_CONFIG.minValue + ((35 : ℤ) : ℚ) * DEFAULT_CONFIG.step :=
  ⟨⟨by norm_num [DEFAULT_CONFIG], by norm_num [DEFAULT_CONFIG],
    by norm_num [DEFAULT_CONFIG]⟩,
   (C2_amended DEFAULT_CONFIG 150 220 (by norm_num [DEFAULT_CONFIG])
     (by norm_num [DEFAULT_CONFIG]) (by norm_num [DEFAULT_CONFIG])).2 35⟩

end VerticalRuler

namespace VerticalRuler

/-- C1 counterexample: in the spec's own scenario configuration
(`minValue=40, maxValue=150, step=0.5`) the `setValue(61.3)` transition
emits `61.3`, which is not a multiple of `step` offset from `minValue`
(`61.3 - 40 = 21.3` is not a multiple of `0.5`) — so not every emitted
value is step-aligned. -/
theorem C1_counterexample :
    (setValue cfg40 (initialState cfg40) (613/10)).2
      = [Event.valueChange (613/10)]
    ∧ ¬ stepAligned cfg40 (613/10) := by
  constructor
  · simp only [setValue, cfg40, DEFAULT_CONFIG, initialState]
    norm_num [max_def, min_def]
  · rintro ⟨k, hk⟩
    simp only [cfg40, DEFAULT_CONFIG] at hk
    have h5 : ((10 * k : ℤ) : ℚ) = 426 := by push_cast; linarith
    have h6 : (10 * k : ℤ) = 426 := by exact_mod_cast h5
    omega

/-- C1 (amended): when `minValue` and `maxValue` are integer multiples of
`step` (and the current value is in range), every value emitted by a drag
move or release lies in `[minValue, maxValue]` and is step-aligned;
`increment`/`decrement` emit in-range values and preserve step alignment;
`setValue` and `switchUnit` emit in-range values but do not enforce step
alignment (direct sets and unit conversions are only clamped). -/
theorem C1_amended (cfg : RulerConfig) (s : RulerState) (a b : ℤ)
    (hmin : cfg.minValue = a * cfg.step) (hmax : cfg.maxValue = b * cfg.step)
    (hstep : 0 < cfg.step) (hmm : cfg.minValue ≤ cfg.maxValue)
    (hv : inRange cfg s.value) (pageY x : ℚ) (idx : ℤ) :
    (∀ w, Event.valueChange w ∈ (onPanResponderMove cfg s pageY).2 →
       inRange cfg w ∧ stepAligned cfg w)
    ∧ (∀ w, Event.valueChange w ∈ (onPanResponderRelease cfg s pageY).2 →
       inRange cfg w ∧ stepAligned cfg w)
    ∧ (∀ w, Event.valueChange w ∈ (increment cfg s).2 →
       inRange cfg w ∧ (stepAligned cfg s.value → stepAligned cfg w))
    ∧ (∀ w, Event.valueChange w ∈ (decrement cfg s).2 →
       inRange cfg w ∧ (stepAligned cfg s.value → stepAligned cfg w))
    ∧ (∀ w, Event.valueChange w ∈ (setValue cfg s x).2 → inRange cfg w)
    ∧ (∀ w, Event.valueChange w ∈ (switchUnit cfg s idx).2.1 → inRange cfg w) := by
  have hdrag : ∀ py : ℚ,
      inRange cfg (snapToStep cfg (cfg.maxValue -
        max 0 (min cfg.rulerHeight (py - s.rulerTopY)) / cfg.rulerHeight *
          (cfg.maxValue - cfg.minValue)))
      ∧ stepAligned cfg (snapToStep cfg (cfg.maxValue -
        max 0 (min cfg.rulerHeight (py - s.rulerTopY)) / cfg.rulerHeight *
          (cfg.maxValue - cfg.minValue))) := by
    intro py
    obtain ⟨p0, p1⟩ := percentage_bounds cfg.rulerHeight (py - s.rulerTopY)
    exact snapToStep_mem cfg a b hmin hmax hstep (rawValue_mem cfg hmm p0 p1)
  refine ⟨?_, ?_, ?_, ?_, ?_, ?_⟩
  · intro w hw
    rw [show (onPanResponderMove cfg s pageY).2
        = [Event.valueChange ((onPanResponderMove cfg s pageY).1.value)] from rfl,
      List.mem_singleton, Event.valueChange.injEq] at hw
    subst hw
    exact hdrag pageY
  · intro w hw
    rw [show (onPanResponderRelease cfg s pageY).2
        = [Event.valueChange ((onPanResponderRelease cfg s pageY).1.value)] from rfl,
      List.mem_singleton, Event.valueChange.injEq] at hw
    subst hw
    exact hdrag pageY
  · intro w hw
    rw [show (increment cfg s).2
        = [Event.valueChange (min cfg.maxValue (s.value + cfg.step))] from rfl,
      List.mem_singleton, Event.valueChange.injEq] at hw
    subst hw
    constructor
    · exact ⟨le_min hmm (by have := hv.1; linarith), min_le_left _ _⟩
    · rintro ⟨k, hk⟩
      rcases le_or_lt (s.value + cfg.step) cfg.maxValue with hle | hlt
      · exact ⟨k + 1, by rw [min_eq_right hle, hk]; push_cast; ring⟩
      · exact ⟨b - a, by rw [min_eq_left (le_of_lt hlt), hmax, hmin]; push_cast; ring⟩
  · intro w hw
    rw [show (decrement cfg s).2
        = [Event.valueChange (max cfg.minValue (s.value - cfg.step))] from rfl,
      List.mem_singleton, Event.valueChange.injEq] at hw
    subst hw
    constructor
    · exact ⟨le_max_left _ _, max_le hmm (by have := hv.2; linarith)⟩
    · rintro ⟨k, hk⟩
      rcases le_or_lt cfg.minValue (s.value - cfg.step) with hle | hlt
      · exact ⟨k - 1, by rw [max_eq_right hle, hk]; push_cast; ring⟩
      · exact ⟨0, by rw [max_eq_left (le_of_lt hlt)]; push_cast; ring⟩
  · intro w hw
    rw [show (setValue cfg s x).2
        = [Event.valueChange (max cfg.minValue (min cfg.maxValue x))] from rfl,
      List.mem_singleton, Event.valueChange.injEq] at hw
    subst hw
    exact ⟨le_max_left _ _, max_le hmm (min_le_left _ _)⟩
  · intro w hw
    unfold switchUnit at hw
    split_ifs at hw with hcond1 hcond2
    · simp at hw
    · simp at hw
    · simp only [List.mem_cons, List.mem_singleton] at hw
      rcases hw with hw | hw | hw
      · rw [Event.valueChange.injEq] at hw
        subst hw
        exact ⟨le_max_left _ _, max_le hmm (min_le_left _ _)⟩
      · exact absurd hw (by simp)
      · exact absurd hw (List.not_mem_nil _)

/-- Witness for C1 (amended) at the default configuration: the drag-move
event at pointer `200` over origin `0` emits a value that is in range and
step-aligned. -/
theorem C1_amended_witness :
    (DEFAULT_CONFIG.minValue = ((150 : ℤ) : ℚ) * DEFAULT_CONFIG.step
      ∧ DEFAULT_CONFIG.maxValue = ((220 : ℤ) : ℚ) * DEFAULT_CONFIG.step
      ∧ 0 < DEFAULT_CONFIG.step
      ∧ DEFAULT_CONFIG.minValue ≤ DEFAULT_CONFIG.maxValue
      ∧ inRange DEFAULT_CONFIG (initialState DEFAULT_CONFIG).value
      ∧ Event.valueChange 185
          ∈ (onPanResponderMove DEFAULT_CONFIG (initialState DEFAULT_CONFIG) 200).2)
    ∧ inRange DEFAULT_CONFIG 185 ∧ stepAligned DEFAULT_CONFIG 185 := by
  have hm : Event.valueChange 185
      ∈ (onPanResponderMove DEFAULT_CONFIG (initialState DEFAULT_CONFIG) 200).2 := by
    rw [show (onPanResponderMove DEFAULT_CONFIG (initialState DEFAULT_CONFIG) 200).2
        = [Event.valueChange
            ((onPanResponderMove DEFAULT_CONFIG (initialState DEFAULT_CONFIG) 200).1.value)]
        from rfl]
    have h185 : (onPanResponderMove DEFAULT_CONFIG
        (initialState DEFAULT_CONFIG) 200).1.value = 185 := by
      simp only [onPanResponderMove, DEFAULT_CONFIG, initialState]
      norm_num [jsRound, max_def, min_def]
    rw [h185]
    exact List.mem_singleton.mpr rfl
  refine ⟨⟨?_, ?_, ?_, ?_, ?_, hm⟩, ?_⟩
  · norm_num [DEFAULT_CONFIG]
  · norm_num [DEFAULT_CONFIG]
  · norm_num [DEFAULT_CONFIG]
  · norm_num [DEFAULT_CONFIG]
  · exact ⟨by norm_num [DEFAULT_CONFIG, initialState],
      by norm_num [DEFAULT_CONFIG, initialState]⟩
  · exact (C1_amended DEFAULT_CONFIG (initialState DEFAULT_CONFIG) 150 220
      (by norm_num [DEFAULT_CONFIG]) (by norm_num [DEFAULT_CONFIG])
      (by norm_num [DEFAULT_CONFIG]) (by norm_num [DEFAULT_CONFIG])
      ⟨by norm_num [DEFAULT_CONFIG, initialState],
       by norm_num [DEFAULT_CONFIG, initialState]⟩ 200 0 0).1 185 hm

end VerticalRuler

namespace VerticalRuler

theorem ticksFrom_unfold (cfg : RulerConfig) (v : ℚ) :
    ticksFrom cfg v =
      if 0 < cfg.tickInterval ∧ v ≤ cfg.maxValue then
        { value := v, position := valueToPosition cfg v } ::
          ticksFrom cfg (v + cfg.tickInterval)
      else [] := by
  rw [ticksFrom]
  simp [valueToPosition]

theorem ticksFrom_mem_imp (cfg : RulerConfig) (v : ℚ) :
    ∀ t ∈ ticksFrom cfg v,
      ∃ k : ℕ, 0 < cfg.tickInterval
        ∧ v + k * cfg.tickInterval ≤ cfg.maxValue
        ∧ t = { value := v + k * cfg.tickInterval,
                position := valueToPosition cfg (v + k * cfg.tickInterval) } := by
  induction v using ticksFrom.induct cfg with
  | case1 v h ih =>
    intro t ht
    rw [ticksFrom_unfold, if_pos h] at ht
    rcases List.mem_cons.mp ht with he | htl
    · refine ⟨0, h.1, by simpa using h.2, ?_⟩
      rw [he]
      norm_num
    · obtain ⟨k, hk1, hk2, hk3⟩ := ih t htl
      have harr : v + cfg.tickInterval + (k : ℚ) * cfg.tickInterval
          = v + ((k + 1 : ℕ) : ℚ) * cfg.tickInterval := by
        push_cast
        ring
      refine ⟨k + 1, hk1, ?_, ?_⟩
      · rw [← harr]
        exact hk2
      · rw [hk3, harr]
  | case2 v h =>
    intro t ht
    rw [ticksFrom_unfold, if_neg h] at ht
    exact absurd ht (List.not_mem_nil t)

theorem ticksFrom_mem_of (cfg : RulerConfig) (k : ℕ) :
    ∀ v : ℚ, 0 < cfg.tickInterval →
      v + k * cfg.tickInterval ≤ cfg.maxValue →
      ({ value := v + k * cfg.tickInterval,
         position := valueToPosition cfg (v + k * cfg.tickInterval) } : TickInfo)
        ∈ ticksFrom cfg v := by
  induction k with
  | zero =>
    intro v hti hle
    rw [ticksFrom_unfold, if_pos ⟨hti, by simpa using hle⟩]
    have h0 : v + ((0 : ℕ) : ℚ) * cfg.tickInterval = v := by
      push_cast
      ring
    rw [h0]
    exact List.mem_cons_self _ _
  | succ k ih =>
    intro v hti hle
    have hk0 : (0 : ℚ) ≤ ((k : ℚ) + 1) * cfg.tickInterval := by
      have : (0 : ℚ) ≤ (k : ℚ) + 1 := by positivity
      exact mul_nonneg this (le_of_lt hti)
    have hle' : v ≤ cfg.maxValue := by
      push_cast at hle
      nlinarith
    rw [ticksFrom_unfold, if_pos ⟨hti, hle'⟩]
    apply List.mem_cons_of_mem
    have harr : v + ((k + 1 : ℕ) : ℚ) * cfg.tickInterval
        = v + cfg.tickInterval + (k : ℚ) * cfg.tickInterval := by
      push_cast
      ring
    rw [harr]
    refine ih (v + cfg.tickInterval) hti ?_
    rw [← harr]
    exact hle

theorem ticksFrom_sorted (cfg : RulerConfig) (v : ℚ) :
    List.Sorted (· < ·) ((ticksFrom cfg v).map TickInfo.value) := by
  induction v using ticksFrom.induct cfg with
  | case1 v h ih =>
    rw [ticksFrom_unfold, if_pos h, List.map_cons]
    refine List.sorted_cons.mpr ⟨?_, ih⟩
    intro b hb
    rcases List.mem_map.mp hb with ⟨t, ht, rfl⟩
    obtain ⟨k, hk1, hk2, rfl⟩ := ticksFrom_mem_imp cfg (v + cfg.tickInterval) t ht
    have hknn : (0 : ℚ) ≤ (k : ℚ) := Nat.cast_nonneg k
    show v < v + cfg.tickInterval + (k : ℚ) * cfg.tickInterval
    nlinarith [h.1]
  | case2 v h =>
    rw [ticksFrom_unfold, if_neg h]
    simp

/-- C9: with `tickInterval > 0`, tick generation enumerates exactly the
values `minValue + k·tickInterval` that do not exceed `maxValue` (so
`maxValue` appears iff it lies on the interval grid), the produced value
sequence is strictly increasing (hence finite and ordered), and every
tick's position is the same inverted linear map
`((maxValue - value)/(maxValue - minValue))·rulerHeight` used for the
cursor. -/
theorem C9_tickGeneration (cfg : RulerConfig) (hti : 0 < cfg.tickInterval) :
    (∀ t ∈ generateTicks cfg,
       (∃ k : ℕ, t.value = cfg.minValue + k * cfg.tickInterval)
       ∧ t.value ≤ cfg.maxValue
       ∧ t.position = valueToPosition cfg t.value)
    ∧ (∀ k : ℕ, cfg.minValue + k * cfg.tickInterval ≤ cfg.maxValue →
        cfg.minValue + k * cfg.tickInterval
          ∈ (generateTicks cfg).map TickInfo.value)
    ∧ List.Sorted (· < ·) ((generateTicks cfg).map TickInfo.value)
    ∧ (cfg.maxValue ∈ (generateTicks cfg).map TickInfo.value ↔
        ∃ k : ℕ, cfg.maxValue = cfg.minValue + k * cfg.tickInterval) := by
  refine ⟨?_, ?_, ticksFrom_sorted cfg cfg.minValue, ?_, ?_⟩
  · intro t ht
    obtain ⟨k, hk1, hk2, rfl⟩ := ticksFrom_mem_imp cfg cfg.minValue t ht
    exact ⟨⟨k, rfl⟩, hk2, rfl⟩
  · intro k hk
    exact List.mem_map.mpr ⟨_, ticksFrom_mem_of cfg k cfg.minValue hti hk, rfl⟩
  · intro hmem
    rcases List.mem_map.mp hmem with ⟨t, ht, hval⟩
    obtain ⟨k, hk1, hk2, rfl⟩ := ticksFrom_mem_imp cfg cfg.minValue t ht
    exact ⟨k, hval.symm⟩
  · rintro ⟨k, hk⟩
    have hmem := ticksFrom_mem_of cfg k cfg.minValue hti (le_of_eq hk.symm)
    exact List.mem_map.mpr ⟨_, hmem, hk.symm⟩

/-- Witness for C9 at the default configuration: the tick values are
strictly sorted and `maxValue = 220 = 150 + 14·5` is on the grid, hence a
tick. -/
theorem C9_tickGeneration_witness :
    0 < DEFAULT_CONFIG.tickInterval
    ∧ List.Sorted (· < ·) ((generateTicks DEFAULT_CONFIG).map TickInfo.value)
    ∧ DEFAULT_CONFIG.maxValue ∈ (generateTicks DEFAULT_CONFIG).map TickInfo.value := by
  have hti : 0 < DEFAULT_CONFIG.tickInterval := by norm_num [DEFAULT_CONFIG]
  have h := C9_tickGeneration DEFAULT_CONFIG hti
  exact ⟨hti, h.2.2.1, h.2.2.2.mpr ⟨14, by norm_num [DEFAULT_CONFIG]⟩⟩

end VerticalRuler
